import Mathlib

/-!
# Verification of the Accurate-Cyber-Defense-Bandwidth-Monitoring-Tool core

Shallow embedding of the monitoring core of
`src/Accurate-Cyber-Defense-Bandwidth-Monitoring-Tool.py`:

* `NetworkMonitor` (registry of monitored IPs, bounded per-IP
  sliding windows fed by the monitor loop, lifecycle flag);
* `BandwidthAnalyzer` (total / average / peak / trend queries);
* `SecurityAlertSystem` (threshold alerts with a severity table);
* `DatabaseManager.add_bandwidth_log` (best-effort persistence);
* the GUI entry points `toggle_monitoring` and `export_data`.

Python `deque(maxlen=100)` windows are lists that keep the most recent
100 elements; the SQLite log is a list of rows plus an error log for
swallowed exceptions; randomness of `simulate_ip_traffic` is abstracted
as an explicit sampler argument; wall-clock timestamps are `Nat` ticks.
-/

namespace BandwidthMonitor

/-! ## IP validation (model of CPython `ipaddress.ip_address` parsing) -/

/-- Split a character list on a separator character, mirroring Python's
`str.split(sep)` (an empty string yields `[[]]`, separators at the ends
yield empty groups). -/
def splitOnChar (sep : Char) : List Char → List (List Char)
  | [] => [[]]
  | c :: rest =>
    let r := splitOnChar sep rest
    if c = sep then [] :: r
    else
      match r with
      | [] => [[c]]
      | g :: gs => (c :: g) :: gs

/-- Decimal value of a digit string, as Python `int(s, 10)` on digit-only input. -/
def digitsToNat (cs : List Char) : Nat :=
  cs.foldl (fun acc c => 10 * acc + (c.toNat - '0'.toNat)) 0

/-- CPython `IPv4Address._parse_octet`: 1–3 ASCII digits, no leading zero
unless the octet is exactly `"0"`, value at most 255. -/
def validOctet (cs : List Char) : Bool :=
  decide (1 ≤ cs.length) && cs.all Char.isDigit && decide (cs.length ≤ 3) &&
    (decide (cs.length = 1) || decide (cs.headD ' ' ≠ '0')) &&
    decide (digitsToNat cs ≤ 255)

/-- CPython `IPv4Address._ip_int_from_string`: exactly four octets. -/
def validIPv4 (cs : List Char) : Bool :=
  let parts := splitOnChar '.' cs
  decide (parts.length = 4) && parts.all validOctet

/-- Hexadecimal digit as accepted by `int(s, 16)`. -/
def isHexDigitChar (c : Char) : Bool :=
  c.isDigit || ('a' ≤ c && c ≤ 'f') || ('A' ≤ c && c ≤ 'F')

/-- CPython `IPv6Address._parse_hextet`: 1–4 hex digits. -/
def validHextet (cs : List Char) : Bool :=
  decide (1 ≤ cs.length) && decide (cs.length ≤ 4) && cs.all isHexDigitChar

/-- CPython `IPv6Address._ip_int_from_string` after the embedded-IPv4 tail has
been replaced by two hextet groups: at most 9 groups, at most one `::`
(an empty inner group), correct handling of empty end groups, and at most
7 explicit groups around a `::`. -/
def validIPv6Parts (parts : List (List Char)) : Bool :=
  if decide (9 < parts.length) then false
  else
    let inner := (parts.drop 1).dropLast
    let emptyCount := inner.countP (fun p => p.isEmpty)
    if decide (2 ≤ emptyCount) then false
    else if decide (emptyCount = 1) then
      let skipIndex := inner.findIdx (fun p => p.isEmpty) + 1
      let n := parts.length
      let lo0 := n - skipIndex - 1
      if (parts.headD []).isEmpty && decide (skipIndex ≠ 1) then false
      else if (parts.getLastD []).isEmpty && decide (lo0 ≠ 1) then false
      else
        let hi := if (parts.headD []).isEmpty then 0 else skipIndex
        let lo := if (parts.getLastD []).isEmpty then 0 else lo0
        if decide (7 < hi + lo) then false
        else (parts.take hi).all validHextet && (parts.drop (n - lo)).all validHextet
    else
      decide (parts.length = 8) && parts.all validHextet

/-- CPython IPv6 textual form without a scope id: at least two colons, an
optional embedded IPv4 tail (validated then counted as two groups). -/
def validIPv6NoScope (cs : List Char) : Bool :=
  let parts0 := splitOnChar ':' cs
  if decide (parts0.length < 3) then false
  else
    let last := parts0.getLastD []
    if last.contains '.' then
      validIPv4 last && validIPv6Parts (parts0.dropLast ++ [['0'], ['0']])
    else validIPv6Parts parts0

/-- CPython `IPv6Address.__init__`: an optional `%scope` suffix, where the
scope id is nonempty and contains no further `%`. -/
def validIPv6 (cs : List Char) : Bool :=
  match splitOnChar '%' cs with
  | [addr] => validIPv6NoScope addr
  | [addr, scopeId] => !scopeId.isEmpty && validIPv6NoScope addr
  | _ => false

/-- `ipaddress.ip_address(s)` succeeds iff `s` parses as IPv4 or IPv6. -/
def ip_address_valid (s : String) : Bool :=
  validIPv4 s.toList || validIPv6 s.toList

/-! ## Data model -/

/-- One simulated traffic sample for one IP (`simulate_ip_traffic` result). -/
structure Sample where
  bytes_sent : Nat
  bytes_received : Nat
  packets_sent : Nat
  packets_received : Nat
deriving DecidableEq

/-- A per-target window pair: the `{"sent": deque(maxlen=100),
"received": deque(maxlen=100)}` dictionaries of `bandwidth_data` /
`packet_data`. -/
structure Window where
  sent : List Nat
  received : List Nat
deriving DecidableEq

def emptyWindow : Window := ⟨[], []⟩

/-- `deque(maxlen=cap).append`: append and keep the most recent `cap`
elements. -/
def deque_append (cap : Nat) (l : List α) (x : α) : List α :=
  let l2 := l ++ [x]
  l2.drop (l2.length - cap)

/-- A Python dict keyed by IP string, as an association list. -/
def lookupWin : List (String × Window) → String → Option Window
  | [], _ => none
  | (k, v) :: rest, ip => if k = ip then some v else lookupWin rest ip

/-- `d.get(ip, {"sent": deque(), "received": deque()})`. -/
def getWin (m : List (String × Window)) (ip : String) : Window :=
  (lookupWin m ip).getD emptyWindow

/-- `defaultdict` indexing plus in-place mutation `d[ip] = f d[ip]`
(creates the default entry when the key is absent). -/
def updateWin : List (String × Window) → String → (Window → Window) → List (String × Window)
  | [], ip, f => [(ip, f emptyWindow)]
  | (k, v) :: rest, ip, f =>
    if k = ip then (k, f v) :: rest else (k, v) :: updateWin rest ip f

/-- One row of the `bandwidth_logs` SQLite table (auto id and the
insertion-time timestamp column are kept abstract). -/
structure DbRow where
  ip_address : String
  bytes_sent : Nat
  bytes_received : Nat
  packets_sent : Nat
  packets_received : Nat
  connection_type : String
deriving DecidableEq

/-- State of a `NetworkMonitor` (plus its `DatabaseManager` and the error
log that records swallowed exceptions). -/
structure MonitorState where
  monitoring : Bool
  monitored_ips : List String
  bandwidth_data : List (String × Window)
  packet_data : List (String × Window)
  db_logs : List DbRow
  error_log : List String
  data_queue : List (String × Sample)
deriving DecidableEq

/-- `NetworkMonitor.__init__`. -/
def initState : MonitorState := ⟨false, [], [], [], [], [], []⟩

/-! ## NetworkMonitor operations -/

/-- `NetworkMonitor.add_ip_to_monitor`: validate with
`ipaddress.ip_address`, then `set.add` (idempotent); returns `True` on
success, `False` on a `ValueError`. -/
def add_ip_to_monitor (st : MonitorState) (ip : String) : Bool × MonitorState :=
  if ip_address_valid ip then
    (true,
      { st with
        monitored_ips :=
          if ip ∈ st.monitored_ips then st.monitored_ips
          else st.monitored_ips ++ [ip] })
  else (false, st)

/-- `NetworkMonitor.remove_ip_from_monitor`: `set.discard` (no-op when
absent); nothing else is touched. -/
def remove_ip_from_monitor (st : MonitorState) (ip : String) : MonitorState :=
  { st with monitored_ips := st.monitored_ips.erase ip }

/-- `NetworkMonitor.start_monitoring`: sets the cooperative flag. -/
def start_monitoring (st : MonitorState) : MonitorState :=
  { st with monitoring := true }

/-- `NetworkMonitor.stop_monitoring`: clears the cooperative flag. -/
def stop_monitoring (st : MonitorState) : MonitorState :=
  { st with monitoring := false }

/-! ## DatabaseManager -/

/-- The fallible SQLite `INSERT INTO bandwidth_logs ...; commit`; `dbOk`
abstracts whether the durable write succeeds. -/
def sqlite_insert (dbOk : Bool) (logs : List DbRow) (row : DbRow) :
    Except String (List DbRow) :=
  if dbOk then .ok (logs ++ [row]) else .error "database failure"

/-- `DatabaseManager.add_bandwidth_log`: the insert is wrapped in
`try/except`; on failure the exception is logged and swallowed, so the
call always returns normally. -/
def add_bandwidth_log (dbOk : Bool) (st : MonitorState) (row : DbRow) : MonitorState :=
  match sqlite_insert dbOk st.db_logs row with
  | .ok l => { st with db_logs := l }
  | .error e =>
      { st with error_log := st.error_log ++ ["Error adding bandwidth log: " ++ e] }

/-! ## The monitor loop -/

/-- Body of `NetworkMonitor._monitor_loop` for one target: append the
sample to the in-memory windows (capacity 100), store it in the
database, and push it on the GUI queue. -/
def process_sample (dbOk : Bool) (st : MonitorState) (ip : String) (s : Sample) :
    MonitorState :=
  let st1 :=
    { st with
      bandwidth_data :=
        updateWin st.bandwidth_data ip fun w =>
          ⟨deque_append 100 w.sent s.bytes_sent,
           deque_append 100 w.received s.bytes_received⟩,
      packet_data :=
        updateWin st.packet_data ip fun w =>
          ⟨deque_append 100 w.sent s.packets_sent,
           deque_append 100 w.received s.packets_received⟩ }
  let st2 := add_bandwidth_log dbOk st1
      ⟨ip, s.bytes_sent, s.bytes_received, s.packets_sent, s.packets_received, "ethernet"⟩
  { st2 with data_queue := st2.data_queue ++ [(ip, s)] }

/-- One pass of the `while self.monitoring` loop of
`NetworkMonitor._monitor_loop`: when the flag is clear nothing runs;
otherwise every monitored IP is sampled and processed. The
nondeterministic `simulate_ip_traffic` is the `sampler` argument. -/
def monitor_tick (dbOk : Bool) (sampler : String → Sample) (st : MonitorState) :
    MonitorState :=
  if st.monitoring then
    st.monitored_ips.foldl (fun acc ip => process_sample dbOk acc ip (sampler ip)) st
  else st

/-! ## BandwidthAnalyzer -/

/-- `BandwidthAnalyzer.get_total_bandwidth`. -/
def get_total_bandwidth (st : MonitorState) (ip : String) : Nat × Nat :=
  let w := getWin st.bandwidth_data ip
  (w.sent.sum, w.received.sum)

/-- `BandwidthAnalyzer.get_average_bandwidth` (float division modelled in ℚ). -/
def get_average_bandwidth (st : MonitorState) (ip : String) : ℚ × ℚ :=
  let w := getWin st.bandwidth_data ip
  if w.sent.isEmpty || w.received.isEmpty then (0, 0)
  else ((w.sent.sum : ℚ) / (w.sent.length : ℚ),
        (w.received.sum : ℚ) / (w.received.length : ℚ))

/-- Python `max` over a list of naturals (only used on nonempty lists,
where the `0` seed is absorbed). -/
def pyMax (l : List Nat) : Nat := l.foldl max 0

/-- `BandwidthAnalyzer.get_peak_bandwidth`. -/
def get_peak_bandwidth (st : MonitorState) (ip : String) : Nat × Nat :=
  let w := getWin st.bandwidth_data ip
  if w.sent.isEmpty || w.received.isEmpty then (0, 0)
  else (pyMax w.sent, pyMax w.received)

/-- Trend states reported by `get_bandwidth_trend`. -/
inductive Trend where
  | insufficient_data
  | increasing
  | decreasing
  | stable
deriving DecidableEq

/-- Slope of the degree-1 least-squares fit of `ys` against the index
sequence `0, 1, …` — the value `np.polyfit(range(n), ys, 1)[0]`
computes (normal-equation form). -/
def lsqSlope (ys : List ℚ) : ℚ :=
  let n := ys.length
  let sx : ℚ := ∑ i in Finset.range n, (i : ℚ)
  let sy : ℚ := ∑ i in Finset.range n, ys.getD i 0
  let sxy : ℚ := ∑ i in Finset.range n, (i : ℚ) * ys.getD i 0
  let sxx : ℚ := ∑ i in Finset.range n, (i : ℚ) * (i : ℚ)
  ((n : ℚ) * sxy - sx * sy) / ((n : ℚ) * sxx - sx * sx)

/-- `BandwidthAnalyzer.get_bandwidth_trend`. -/
def get_bandwidth_trend (st : MonitorState) (ip : String) : Trend × ℚ :=
  let w := getWin st.bandwidth_data ip
  if w.sent.length < 2 then (.insufficient_data, 0)
  else
    let slope := lsqSlope (w.sent.map fun x : Nat => (x : ℚ))
    if 0 < slope then (.increasing, slope)
    else if slope < 0 then (.decreasing, slope)
    else (.stable, slope)

/-- The sign-of-slope classification the specification describes:
`increasing` for positive slope, `decreasing` for negative slope,
`stable` for zero slope. -/
def trend_of_slope (s : ℚ) : Trend :=
  if 0 < s then .increasing else if s < 0 then .decreasing else .stable

/-! ## SecurityAlertSystem -/

/-- The alert kinds appearing in `alert_thresholds` / `severity_map`. -/
inductive AlertType where
  | HIGH_BANDWIDTH_OUT
  | HIGH_BANDWIDTH_IN
  | SUSPICIOUS_PACKETS
  | RAPID_CONNECTIONS
deriving DecidableEq

/-- Severity levels of the static `severity_map`. -/
inductive Severity where
  | LOW
  | MEDIUM
  | HIGH
deriving DecidableEq

/-- `SecurityAlertSystem.get_alert_severity`: the static `severity_map`
(whose `.get(_, 'LOW')` default never fires for the four declared kinds). -/
def get_alert_severity : AlertType → Severity
  | .HIGH_BANDWIDTH_OUT => .MEDIUM
  | .HIGH_BANDWIDTH_IN => .MEDIUM
  | .SUSPICIOUS_PACKETS => .HIGH
  | .RAPID_CONNECTIONS => .HIGH

/-- The `alert_thresholds` dictionary of `SecurityAlertSystem.__init__`. -/
structure AlertThresholds where
  high_bandwidth : Nat
  suspicious_packets : Nat
  rapid_connections : Nat
deriving DecidableEq

/-- The thresholds hard-coded in the source (`1024*1024`, `1000`, `50`). -/
def default_thresholds : AlertThresholds := ⟨1024 * 1024, 1000, 50⟩

/-- An alert record as built by `create_alert`. -/
structure Alert where
  timestamp : Nat
  ip_address : String
  kind : AlertType
  message : String
  severity : Severity
deriving DecidableEq

/-- `SecurityAlertSystem.create_alert`: build the record (severity from
the static table) and append it to the `deque(maxlen=100)` ring. -/
def create_alert (now : Nat) (alerts : List Alert) (ip : String)
    (t : AlertType) (msg : String) : List Alert :=
  deque_append 100 alerts ⟨now, ip, t, msg, get_alert_severity t⟩

/-- Body of `SecurityAlertSystem.check_for_anomalies` for one IP: the
three independent peak-vs-threshold checks (the `rapid_connections`
threshold is declared but never evaluated in the source). -/
def check_ip (thr : AlertThresholds) (now : Nat) (st : MonitorState)
    (alerts : List Alert) (ip : String) : List Alert :=
  let bw := getWin st.bandwidth_data ip
  let pk := getWin st.packet_data ip
  let a1 :=
    if !bw.sent.isEmpty && decide (thr.high_bandwidth < pyMax bw.sent) then
      create_alert now alerts ip .HIGH_BANDWIDTH_OUT
        ("High outbound bandwidth detected: " ++ toString (pyMax bw.sent) ++ " bytes")
    else alerts
  let a2 :=
    if !bw.received.isEmpty && decide (thr.high_bandwidth < pyMax bw.received) then
      create_alert now a1 ip .HIGH_BANDWIDTH_IN
        ("High inbound bandwidth detected: " ++ toString (pyMax bw.received) ++ " bytes")
    else a1
  if !pk.sent.isEmpty && decide (thr.suspicious_packets < pyMax pk.sent) then
    create_alert now a2 ip .SUSPICIOUS_PACKETS
      ("High packet count detected: " ++ toString (pyMax pk.sent) ++ " packets")
  else a2

/-- `SecurityAlertSystem.check_for_anomalies`: one evaluation pass over
every monitored IP, threading the alert ring. -/
def check_for_anomalies (thr : AlertThresholds) (now : Nat) (st : MonitorState)
    (alerts : List Alert) : List Alert :=
  st.monitored_ips.foldl (check_ip thr now st) alerts

/-! ## GUI entry points -/

/-- State owned by `CyberSecurityMonitorGUI` that the lifecycle claims
touch: the monitor plus the `monitoring_active` Tk variable. -/
structure GuiState where
  nm : MonitorState
  monitoring_active : Bool
deriving DecidableEq

/-- `CyberSecurityMonitorGUI.toggle_monitoring`: starting with no
monitored IPs shows a warning and returns without changes; otherwise
start (flag set) or stop (flag cleared). -/
def toggle_monitoring (g : GuiState) : GuiState :=
  if !g.monitoring_active then
    if g.nm.monitored_ips.isEmpty then g
    else { nm := start_monitoring g.nm, monitoring_active := true }
  else { nm := stop_monitoring g.nm, monitoring_active := false }

/-- The per-IP entry `export_data` builds (four window snapshots). -/
structure ExportEntry where
  bandwidth_sent : List Nat
  bandwidth_received : List Nat
  packets_sent : List Nat
  packets_received : List Nat
deriving DecidableEq

/-- The dictionary `CyberSecurityMonitorGUI.export_data` dumps: one
entry per monitored IP, holding that IP's window contents. -/
def export_data (st : MonitorState) : List (String × ExportEntry) :=
  st.monitored_ips.map fun ip =>
    (ip,
      ⟨(getWin st.bandwidth_data ip).sent, (getWin st.bandwidth_data ip).received,
       (getWin st.packet_data ip).sent, (getWin st.packet_data ip).received⟩)

/-- Join strings with a separator. -/
def joinSep (sep : String) : List String → String
  | [] => ""
  | [s] => s
  | s :: rest => s ++ sep ++ joinSep sep rest

/-- `json.dump(l, indent=2)` rendering of a list of naturals at
indentation `ind`. -/
def jsonNatList (ind : String) (l : List Nat) : String :=
  if l.isEmpty then "[]"
  else
    "[\n" ++ joinSep ",\n" (l.map fun n => ind ++ "  " ++ toString n) ++
      "\n" ++ ind ++ "]"

/-- `json.dump` rendering of one export entry. -/
def jsonExportEntry (ind : String) (e : ExportEntry) : String :=
  "\x7b\n" ++
    ind ++ "  \"bandwidth_sent\": " ++ jsonNatList (ind ++ "  ") e.bandwidth_sent ++ ",\n" ++
    ind ++ "  \"bandwidth_received\": " ++ jsonNatList (ind ++ "  ") e.bandwidth_received ++ ",\n" ++
    ind ++ "  \"packets_sent\": " ++ jsonNatList (ind ++ "  ") e.packets_sent ++ ",\n" ++
    ind ++ "  \"packets_received\": " ++ jsonNatList (ind ++ "  ") e.packets_received ++ "\n" ++
    ind ++ "\x7d"

/-- `json.dump(export_data, f, indent=2)`: the exact file contents the
export writes; the empty dictionary renders as `{}`. -/
def json_dump (d : List (String × ExportEntry)) : String :=
  if d.isEmpty then "\x7b\x7d"
  else
    "\x7b\n" ++
      joinSep ",\n" (d.map fun p => "  \"" ++ p.1 ++ "\": " ++ jsonExportEntry "  " p.2) ++
      "\n\x7d"

/-! ## Concrete inputs used by the witness theorems -/

/-- 101 concrete samples for one target. -/
def sample101 : List Sample := (List.range 101).map fun i => ⟨i, i, i, i⟩

/-- A monitor state whose only window data is the given sent/received
byte list for `"10.0.0.1"`. -/
def trendState (l : List Nat) : MonitorState :=
  { initState with bandwidth_data := [("10.0.0.1", ⟨l, l⟩)] }

/-- Thresholds with the outbound-byte threshold set to 1,000,000. -/
def witThresholds : AlertThresholds := ⟨1000000, 1000, 50⟩

/-- One monitored target whose window contains a 2,000,000-byte sent sample. -/
def alertState : MonitorState :=
  { initState with
    monitored_ips := ["10.0.0.1"],
    bandwidth_data := [("10.0.0.1", ⟨[2000000], [0]⟩)] }

/-- Idle GUI with no monitored targets. -/
def guiIdleEmpty : GuiState := ⟨initState, false⟩

/-- Idle GUI with one monitored target. -/
def guiIdleOne : GuiState := ⟨{ initState with monitored_ips := ["10.0.0.1"] }, false⟩

/-- Running GUI with one monitored target. -/
def guiRunning : GuiState :=
  ⟨{ initState with monitored_ips := ["10.0.0.1"], monitoring := true }, true⟩

/-- A state with recorded window data for one monitored target. -/
def removeState : MonitorState :=
  { initState with
    monitored_ips := ["10.0.0.1"],
    bandwidth_data := [("10.0.0.1", ⟨[5], [6]⟩)],
    packet_data := [("10.0.0.1", ⟨[7], [8]⟩)] }

end BandwidthMonitor

namespace BandwidthMonitor

/-! ## Helper lemmas -/

/-- Reading back the updated key gives the updated window. -/
theorem getWin_updateWin (m : List (String × Window)) (ip : String) (f : Window → Window) :
    getWin (updateWin m ip f) ip = f (getWin m ip) := by
  induction m with
  | nil => simp [updateWin, getWin, lookupWin]
  | cons kv rest ih =>
    obtain ⟨k, v⟩ := kv
    by_cases h : k = ip
    · simp [updateWin, getWin, lookupWin, h]
    · simpa [updateWin, getWin, lookupWin, h] using ih

/-- `add_bandwidth_log` only touches the database log and the error log. -/
theorem add_bandwidth_log_core (dbOk : Bool) (st : MonitorState) (row : DbRow) :
    (add_bandwidth_log dbOk st row).monitoring = st.monitoring ∧
    (add_bandwidth_log dbOk st row).monitored_ips = st.monitored_ips ∧
    (add_bandwidth_log dbOk st row).bandwidth_data = st.bandwidth_data ∧
    (add_bandwidth_log dbOk st row).packet_data = st.packet_data ∧
    (add_bandwidth_log dbOk st row).data_queue = st.data_queue := by
  cases dbOk <;> simp [add_bandwidth_log, sqlite_insert]

/-- The bandwidth windows after processing one sample. -/
theorem bandwidth_data_process_sample (dbOk : Bool) (st : MonitorState) (ip : String)
    (s : Sample) :
    (process_sample dbOk st ip s).bandwidth_data =
      updateWin st.bandwidth_data ip (fun w =>
        ⟨deque_append 100 w.sent s.bytes_sent,
         deque_append 100 w.received s.bytes_received⟩) := by
  cases dbOk <;> simp [process_sample, add_bandwidth_log, sqlite_insert]

/-- Folding bounded appends from an empty seed keeps exactly the most
recent `cap` elements, in arrival order. -/
theorem foldl_deque_append (cap : ℕ) (xs : List ℕ) :
    xs.foldl (deque_append cap) [] = xs.drop (xs.length - cap) := by
  induction xs using List.reverseRecOn with
  | nil => simp
  | append_singleton xs x ih =>
    rw [List.foldl_append, List.foldl_cons, List.foldl_nil, ih]
    by_cases h : xs.length ≤ cap
    · rw [Nat.sub_eq_zero_of_le h, List.drop_zero]
      rfl
    · push_neg at h
      have hd : (xs.drop (xs.length - cap)).length = cap := by
        rw [List.length_drop]; omega
      have e1 : deque_append cap (xs.drop (xs.length - cap)) x
          = ((xs ++ [x]).drop (xs.length - cap)).drop 1 := by
        show (xs.drop (xs.length - cap) ++ [x]).drop
            ((xs.drop (xs.length - cap) ++ [x]).length - cap) = _
        rw [List.length_append, List.length_singleton, hd, Nat.add_sub_cancel_left,
          List.drop_append_of_le_length (by omega : xs.length - cap ≤ xs.length)]
      rw [e1, List.drop_drop]
      congr 1
      rw [List.length_append, List.length_singleton]
      omega

/-- The bandwidth window of `ip` after the monitor loop has processed a
list of samples for `ip`: both deques evolve by bounded appends. -/
theorem getWin_process_fold (dbOk : Bool) (ip : String) (samples : List Sample) :
    ∀ st : MonitorState,
      getWin (samples.foldl (fun acc s => process_sample dbOk acc ip s) st).bandwidth_data ip =
        ⟨samples.foldl (fun l s => deque_append 100 l s.bytes_sent)
            (getWin st.bandwidth_data ip).sent,
         samples.foldl (fun l s => deque_append 100 l s.bytes_received)
            (getWin st.bandwidth_data ip).received⟩ := by
  induction samples with
  | nil => intro st; simp
  | cons s rest ih =>
    intro st
    rw [List.foldl_cons, ih, List.foldl_cons, List.foldl_cons,
      bandwidth_data_process_sample, getWin_updateWin]

end BandwidthMonitor

namespace BandwidthMonitor

/-! ## C1: the per-target window is bounded by 100 samples -/

/-- C1: for every target, the per-target window of sent/received byte
counts never holds more than 100 entries; after inserting N > 100
samples for one target, the window contains exactly the most recent 100
samples in arrival order, and `get_total_bandwidth`,
`get_average_bandwidth` and `get_peak_bandwidth` are computed over only
those most recent 100 samples. -/
theorem C1_window_bounded (dbOk : Bool) (samples : List Sample) (ip : String)
    (h : 100 < samples.length) :
    let st := samples.foldl (fun acc s => process_sample dbOk acc ip s) initState
    let lastS := (samples.map Sample.bytes_sent).drop (samples.length - 100)
    let lastR := (samples.map Sample.bytes_received).drop (samples.length - 100)
    getWin st.bandwidth_data ip = ⟨lastS, lastR⟩ ∧
    lastS.length = 100 ∧ lastR.length = 100 ∧
    get_total_bandwidth st ip = (lastS.sum, lastR.sum) ∧
    get_average_bandwidth st ip = ((lastS.sum : ℚ) / 100, (lastR.sum : ℚ) / 100) ∧
    get_peak_bandwidth st ip = (pyMax lastS, pyMax lastR) ∧
    (∀ samples2 : List Sample,
      (getWin ((samples2.foldl (fun acc s => process_sample dbOk acc ip s)
          initState)).bandwidth_data ip).sent.length ≤ 100) := by
  intro st lastS lastR
  have hwin : getWin st.bandwidth_data ip = ⟨lastS, lastR⟩ := by
    show getWin (samples.foldl (fun acc s => process_sample dbOk acc ip s)
        initState).bandwidth_data ip = _
    rw [getWin_process_fold]
    have h0 : getWin initState.bandwidth_data ip = emptyWindow := rfl
    rw [h0]
    show Window.mk (samples.foldl (fun l s => deque_append 100 l s.bytes_sent) [])
      (samples.foldl (fun l s => deque_append 100 l s.bytes_received) []) = _
    congr 1
    · rw [← List.foldl_map Sample.bytes_sent (deque_append 100), foldl_deque_append]
      simp [lastS]
    · rw [← List.foldl_map Sample.bytes_received (deque_append 100), foldl_deque_append]
      simp [lastR]
  have hlenS : lastS.length = 100 := by
    show ((samples.map Sample.bytes_sent).drop (samples.length - 100)).length = 100
    rw [List.length_drop, List.length_map]; omega
  have hlenR : lastR.length = 100 := by
    show ((samples.map Sample.bytes_received).drop (samples.length - 100)).length = 100
    rw [List.length_drop, List.length_map]; omega
  have hSne : lastS.isEmpty = false := by
    cases hl : lastS with
    | nil => rw [hl] at hlenS; simp at hlenS
    | cons a t => simp
  have hRne : lastR.isEmpty = false := by
    cases hl : lastR with
    | nil => rw [hl] at hlenR; simp at hlenR
    | cons a t => simp
  refine ⟨hwin, hlenS, hlenR, ?_, ?_, ?_, ?_⟩
  · simp [get_total_bandwidth, hwin]
  · simp only [get_average_bandwidth, hwin, hSne, hRne, Bool.or_self, Bool.false_eq_true,
      if_false, hlenS, hlenR]
    norm_num
  · simp [get_peak_bandwidth, hwin, hSne, hRne]
  · intro samples2
    rw [getWin_process_fold]
    show (samples2.foldl (fun l s => deque_append 100 l s.bytes_sent) []).length ≤ 100
    rw [← List.foldl_map Sample.bytes_sent (deque_append 100), foldl_deque_append,
      List.length_drop, List.length_map]
    omega

/-- Witness for C1 at 101 concrete samples. -/
theorem C1_window_bounded_witness :
    100 < sample101.length ∧
    (let st := sample101.foldl (fun acc s => process_sample true acc "10.0.0.1" s) initState
     let lastS := (sample101.map Sample.bytes_sent).drop (sample101.length - 100)
     let lastR := (sample101.map Sample.bytes_received).drop (sample101.length - 100)
     getWin st.bandwidth_data "10.0.0.1" = ⟨lastS, lastR⟩ ∧
     lastS.length = 100 ∧ lastR.length = 100 ∧
     get_total_bandwidth st "10.0.0.1" = (lastS.sum, lastR.sum) ∧
     get_average_bandwidth st "10.0.0.1" = ((lastS.sum : ℚ) / 100, (lastR.sum : ℚ) / 100) ∧
     get_peak_bandwidth st "10.0.0.1" = (pyMax lastS, pyMax lastR) ∧
     (∀ samples2 : List Sample,
       (getWin ((samples2.foldl (fun acc s => process_sample true acc "10.0.0.1" s)
           initState)).bandwidth_data "10.0.0.1").sent.length ≤ 100)) :=
  ⟨by simp [sample101], C1_window_bounded true sample101 "10.0.0.1" (by simp [sample101])⟩

end BandwidthMonitor

namespace BandwidthMonitor

/-! ## C2: degenerate windows -/

/-- C2: over an empty window, `get_average_bandwidth` returns `(0, 0)`
and `get_peak_bandwidth` returns `(0, 0)`; with fewer than 2 points,
`get_bandwidth_trend` returns `insufficient_data` with slope 0. -/
theorem C2_empty_window (st : MonitorState) (ip : String) :
    ((getWin st.bandwidth_data ip).sent = [] →
      (getWin st.bandwidth_data ip).received = [] →
      get_average_bandwidth st ip = (0, 0) ∧ get_peak_bandwidth st ip = (0, 0)) ∧
    ((getWin st.bandwidth_data ip).sent.length < 2 →
      get_bandwidth_trend st ip = (.insufficient_data, 0)) := by
  constructor
  · intro hs hr
    constructor
    · simp [get_average_bandwidth, hs, hr]
    · simp [get_peak_bandwidth, hs, hr]
  · intro h
    simp [get_bandwidth_trend, h]

/-- Witness for C2 at the initial state (empty windows). -/
theorem C2_empty_window_witness :
    (getWin initState.bandwidth_data "10.0.0.1").sent = [] ∧
    (getWin initState.bandwidth_data "10.0.0.1").received = [] ∧
    (get_average_bandwidth initState "10.0.0.1" = (0, 0) ∧
      get_peak_bandwidth initState "10.0.0.1" = (0, 0)) ∧
    ((getWin initState.bandwidth_data "10.0.0.1").sent.length < 2 ∧
      get_bandwidth_trend initState "10.0.0.1" = (.insufficient_data, 0)) :=
  ⟨rfl, rfl, (C2_empty_window initState "10.0.0.1").1 rfl rfl,
   ⟨by decide, (C2_empty_window initState "10.0.0.1").2 (by decide)⟩⟩

/-! ## C3: trend analysis is a least-squares fit -/

/-- Double-sum form of the normal-equation numerator:
`2 (n Σ f·g − Σf Σg) = Σᵢ Σⱼ (fᵢ − fⱼ)(gᵢ − gⱼ)`. -/
theorem sum_pair_identity (n : ℕ) (f g : ℕ → ℚ) :
    2 * ((n : ℚ) * (∑ i in Finset.range n, f i * g i)
        - (∑ i in Finset.range n, f i) * (∑ i in Finset.range n, g i)) =
      ∑ i in Finset.range n, ∑ j in Finset.range n, (f i - f j) * (g i - g j) := by
  have expand : ∀ i j : ℕ, (f i - f j) * (g i - g j)
      = f i * g i - f i * g j - f j * g i + f j * g j := by intro i j; ring
  have inner : ∀ i ∈ Finset.range n,
      (∑ j in Finset.range n, (f i - f j) * (g i - g j))
        = (n : ℚ) * (f i * g i) - f i * (∑ j in Finset.range n, g j)
          - (∑ j in Finset.range n, f j) * g i
          + (∑ j in Finset.range n, f j * g j) := by
    intro i _
    simp only [expand, Finset.sum_add_distrib, Finset.sum_sub_distrib, ← Finset.mul_sum,
      ← Finset.sum_mul, Finset.sum_const, Finset.card_range, nsmul_eq_mul]
    ring
  rw [Finset.sum_congr rfl inner]
  simp only [Finset.sum_add_distrib, Finset.sum_sub_distrib, ← Finset.mul_sum,
    ← Finset.sum_mul, Finset.sum_const, Finset.card_range, nsmul_eq_mul]
  ring

/-- The denominator `n Σ i² − (Σ i)²` of the least-squares slope is
positive as soon as there are two sample indices. -/
theorem lsq_den_pos (n : ℕ) (hn : 2 ≤ n) :
    0 < (n : ℚ) * (∑ i in Finset.range n, (i : ℚ) * (i : ℚ))
      - (∑ i in Finset.range n, (i : ℚ)) * (∑ i in Finset.range n, (i : ℚ)) := by
  have h2 := sum_pair_identity n (fun i => (i : ℚ)) (fun i => (i : ℚ))
  simp only at h2
  have hpos : 0 < ∑ i in Finset.range n, ∑ j in Finset.range n,
      ((i : ℚ) - (j : ℚ)) * ((i : ℚ) - (j : ℚ)) := by
    apply Finset.sum_pos'
    · intro i _
      exact Finset.sum_nonneg fun j _ => mul_self_nonneg _
    · refine ⟨0, Finset.mem_range.mpr (by omega), ?_⟩
      apply Finset.sum_pos' (fun j _ => mul_self_nonneg _)
      refine ⟨1, Finset.mem_range.mpr (by omega), by norm_num⟩
  linarith [h2]

/-- The numerator `n Σ i·gᵢ − Σ i Σ gᵢ` of the least-squares slope is
negative when `g` is strictly decreasing on the sample indices. -/
theorem lsq_num_neg (n : ℕ) (hn : 2 ≤ n) (g : ℕ → ℚ)
    (hdec : ∀ i j, i < j → j < n → g j < g i) :
    (n : ℚ) * (∑ i in Finset.range n, (i : ℚ) * g i)
      - (∑ i in Finset.range n, (i : ℚ)) * (∑ i in Finset.range n, g i) < 0 := by
  have h2 := sum_pair_identity n (fun i => (i : ℚ)) g
  simp only at h2
  have hterm : ∀ i j, i < n → j < n → ((i : ℚ) - (j : ℚ)) * (g i - g j) ≤ 0 := by
    intro i j hi hj
    rcases lt_trichotomy i j with h | h | h
    · refine mul_nonpos_iff.mpr (Or.inr ⟨?_, ?_⟩)
      · have hc : (i : ℚ) ≤ (j : ℚ) := by exact_mod_cast h.le
        linarith
      · have := hdec i j h hj; linarith
    · subst h; simp
    · refine mul_nonpos_iff.mpr (Or.inl ⟨?_, ?_⟩)
      · have hc : (j : ℚ) ≤ (i : ℚ) := by exact_mod_cast h.le
        linarith
      · have := hdec j i h hi; linarith
  have hneg : (∑ i in Finset.range n, ∑ j in Finset.range n,
      ((i : ℚ) - (j : ℚ)) * (g i - g j)) < 0 := by
    have houter : ∀ i ∈ Finset.range n,
        (∑ j in Finset.range n, ((i : ℚ) - (j : ℚ)) * (g i - g j)) ≤ (fun _ => (0 : ℚ)) i := by
      intro i hi
      exact Finset.sum_nonpos fun j hj =>
        hterm i j (Finset.mem_range.mp hi) (Finset.mem_range.mp hj)
    have hstrict : (∑ j in Finset.range n, (((0 : ℕ) : ℚ) - (j : ℚ)) * (g 0 - g j)) < 0 := by
      have hinner : ∀ j ∈ Finset.range n,
          (((0 : ℕ) : ℚ) - (j : ℚ)) * (g 0 - g j) ≤ (fun _ => (0 : ℚ)) j := by
        intro j hj
        exact hterm 0 j (by omega) (Finset.mem_range.mp hj)
      have h1 : (((0 : ℕ) : ℚ) - ((1 : ℕ) : ℚ)) * (g 0 - g 1) < 0 := by
        have hg01 := hdec 0 1 Nat.one_pos (by omega)
        have : ((0 : ℕ) : ℚ) - ((1 : ℕ) : ℚ) < 0 := by norm_num
        nlinarith
      have := Finset.sum_lt_sum hinner ⟨1, Finset.mem_range.mpr (by omega), h1⟩
      simpa using this
    have := Finset.sum_lt_sum houter ⟨0, Finset.mem_range.mpr (by omega), hstrict⟩
    simpa using this
  linarith [h2]

/-- The least-squares numerator vanishes on a constant series. -/
theorem lsq_num_const (n : ℕ) (c : ℚ) (g : ℕ → ℚ) (hg : ∀ i, i < n → g i = c) :
    (n : ℚ) * (∑ i in Finset.range n, (i : ℚ) * g i)
      - (∑ i in Finset.range n, (i : ℚ)) * (∑ i in Finset.range n, g i) = 0 := by
  have e1 : ∑ i in Finset.range n, (i : ℚ) * g i = c * ∑ i in Finset.range n, (i : ℚ) := by
    rw [Finset.mul_sum]
    refine Finset.sum_congr rfl fun i hi => ?_
    rw [hg i (Finset.mem_range.mp hi)]; ring
  have e2 : ∑ i in Finset.range n, g i = (n : ℚ) * c := by
    rw [Finset.sum_congr rfl fun i hi => hg i (Finset.mem_range.mp hi), Finset.sum_const,
      Finset.card_range, nsmul_eq_mul]
  rw [e1, e2]; ring

/-- A strictly decreasing series of at least 2 points has a negative
least-squares slope. -/
theorem lsqSlope_neg (ys : List ℚ) (h2 : 2 ≤ ys.length)
    (hdec : ∀ i j, i < j → j < ys.length → ys.getD j 0 < ys.getD i 0) :
    lsqSlope ys < 0 := by
  have hD := lsq_den_pos ys.length h2
  have hN := lsq_num_neg ys.length h2 (fun i => ys.getD i 0) hdec
  simp only [lsqSlope]
  exact div_neg_of_neg_of_pos hN hD

/-- A constant series has least-squares slope 0. -/
theorem lsqSlope_const (n : ℕ) (c : ℚ) : lsqSlope (List.replicate n c) = 0 := by
  simp only [lsqSlope, List.length_replicate]
  have hg : ∀ i, i < n → (List.replicate n c).getD i 0 = c := by
    intro i hi
    rw [List.getD_eq_getElem?_getD, List.getElem?_replicate, if_pos hi]
    rfl
  rw [lsq_num_const n c (fun i => (List.replicate n c).getD i 0) hg, zero_div]

/-- Reading the cast series at an in-bounds index. -/
theorem getD_map_cast (l : List ℕ) (k : ℕ) (hk : k < l.length) :
    (l.map fun x : Nat => (x : ℚ)).getD k 0 = ((l.get ⟨k, hk⟩ : ℕ) : ℚ) := by
  rw [List.getD_eq_getElem?_getD, List.getElem?_map, List.getElem?_eq_getElem hk]
  simp [List.get_eq_getElem]

end BandwidthMonitor

namespace BandwidthMonitor

/-- C3: for a window of at least 2 sent-byte values,
`get_bandwidth_trend` computes the least-squares linear-fit slope of
the sent-byte series against sample index and classifies it by sign
(`increasing` / `decreasing` / `stable`); in particular
`[10, 20, 30, 40]` yields `increasing` (slope 10), every strictly
decreasing window yields `decreasing`, and every constant window
yields `stable` (slope 0). -/
theorem C3_trend_least_squares :
    (∀ st ip, ¬ (getWin st.bandwidth_data ip).sent.length < 2 →
      get_bandwidth_trend st ip =
        (trend_of_slope (lsqSlope ((getWin st.bandwidth_data ip).sent.map fun x : Nat => (x : ℚ))),
         lsqSlope ((getWin st.bandwidth_data ip).sent.map fun x : Nat => (x : ℚ)))) ∧
    (∀ st ip, (getWin st.bandwidth_data ip).sent = [10, 20, 30, 40] →
      get_bandwidth_trend st ip = (.increasing, 10)) ∧
    (∀ st ip, 2 ≤ (getWin st.bandwidth_data ip).sent.length →
      (getWin st.bandwidth_data ip).sent.Pairwise (· > ·) →
      (get_bandwidth_trend st ip).1 = .decreasing) ∧
    (∀ st ip (c : ℕ), 2 ≤ (getWin st.bandwidth_data ip).sent.length →
      (getWin st.bandwidth_data ip).sent =
        List.replicate (getWin st.bandwidth_data ip).sent.length c →
      get_bandwidth_trend st ip = (.stable, 0)) := by
  refine ⟨?_, ?_, ?_, ?_⟩
  · intro st ip h
    simp only [get_bandwidth_trend, trend_of_slope, if_neg h]
    split_ifs <;> rfl
  · intro st ip hw
    have hs : lsqSlope (([10, 20, 30, 40] : List ℕ).map fun x : Nat => (x : ℚ)) = 10 := by
      norm_num [lsqSlope, Finset.sum_range_succ, List.getD_cons_zero, List.getD_cons_succ]
    simp only [get_bandwidth_trend, hw, hs]
    norm_num
  · intro st ip hlen hpair
    have h2 : ¬ (getWin st.bandwidth_data ip).sent.length < 2 := by omega
    have hlen' : 2 ≤ ((getWin st.bandwidth_data ip).sent.map fun x : Nat => (x : ℚ)).length := by
      rw [List.length_map]; exact hlen
    have hdec : ∀ i j, i < j →
        j < ((getWin st.bandwidth_data ip).sent.map fun x : Nat => (x : ℚ)).length →
        ((getWin st.bandwidth_data ip).sent.map fun x : Nat => (x : ℚ)).getD j 0 <
          ((getWin st.bandwidth_data ip).sent.map fun x : Nat => (x : ℚ)).getD i 0 := by
      intro i j hij hj
      rw [List.length_map] at hj
      have hi : i < (getWin st.bandwidth_data ip).sent.length := Nat.lt_trans hij hj
      rw [getD_map_cast _ j hj, getD_map_cast _ i hi]
      have := List.pairwise_iff_get.mp hpair ⟨i, hi⟩ ⟨j, hj⟩ hij
      exact_mod_cast this
    have hneg := lsqSlope_neg _ hlen' hdec
    simp only [get_bandwidth_trend, if_neg h2, if_neg (not_lt.mpr hneg.le), if_pos hneg]
  · intro st ip c hlen hrep
    have h2 : ¬ (getWin st.bandwidth_data ip).sent.length < 2 := by omega
    have hys : (getWin st.bandwidth_data ip).sent.map (fun x : Nat => (x : ℚ))
        = List.replicate ((getWin st.bandwidth_data ip).sent.length) ((c : ℕ) : ℚ) := by
      rw [hrep]
      simp [List.map_replicate]
    have hs0 : lsqSlope ((getWin st.bandwidth_data ip).sent.map fun x : Nat => (x : ℚ)) = 0 := by
      rw [hys, lsqSlope_const]
    simp only [get_bandwidth_trend, if_neg h2, hs0]
    norm_num

/-- Witness for C3 on concrete windows: `[10,20,30,40]` (increasing),
`[5,3,1]` (strictly decreasing), `[7,7,7]` (constant). -/
theorem C3_trend_least_squares_witness :
    ((¬ (getWin (trendState [10, 20, 30, 40]).bandwidth_data "10.0.0.1").sent.length < 2) ∧
      get_bandwidth_trend (trendState [10, 20, 30, 40]) "10.0.0.1" =
        (trend_of_slope (lsqSlope
            ((getWin (trendState [10, 20, 30, 40]).bandwidth_data "10.0.0.1").sent.map
              fun x : Nat => (x : ℚ))),
         lsqSlope ((getWin (trendState [10, 20, 30, 40]).bandwidth_data "10.0.0.1").sent.map
              fun x : Nat => (x : ℚ)))) ∧
    get_bandwidth_trend (trendState [10, 20, 30, 40]) "10.0.0.1" = (.increasing, 10) ∧
    ((getWin (trendState [5, 3, 1]).bandwidth_data "10.0.0.1").sent.Pairwise (· > ·) ∧
      (get_bandwidth_trend (trendState [5, 3, 1]) "10.0.0.1").1 = .decreasing) ∧
    ((getWin (trendState [7, 7, 7]).bandwidth_data "10.0.0.1").sent =
        List.replicate (getWin (trendState [7, 7, 7]).bandwidth_data "10.0.0.1").sent.length 7 ∧
      get_bandwidth_trend (trendState [7, 7, 7]) "10.0.0.1" = (.stable, 0)) :=
  ⟨⟨by decide, C3_trend_least_squares.1 _ _ (by decide)⟩,
   C3_trend_least_squares.2.1 _ _ rfl,
   ⟨by decide, C3_trend_least_squares.2.2.1 _ _ (by decide) (by decide)⟩,
   ⟨by decide, C3_trend_least_squares.2.2.2 _ _ 7 (by decide) (by decide)⟩⟩

end BandwidthMonitor

namespace BandwidthMonitor

/-! ## C4: high outbound bandwidth alert -/

/-- Every list element is bounded by the running `foldl max`. -/
theorem le_foldl_max (l : List ℕ) : ∀ acc : ℕ,
    (∀ a ∈ l, a ≤ l.foldl max acc) ∧ acc ≤ l.foldl max acc := by
  induction l with
  | nil => intro acc; simp
  | cons b t ih =>
    intro acc
    refine ⟨?_, ?_⟩
    · intro a ha
      rcases List.mem_cons.mp ha with h | h
      · subst h
        exact le_trans (le_max_right acc a) (ih (max acc a)).2
      · exact (ih (max acc b)).1 a h
    · exact le_trans (le_max_left acc b) (ih (max acc b)).2

/-- Members are bounded by `pyMax`. -/
theorem le_pyMax (a : ℕ) (l : List ℕ) (h : a ∈ l) : a ≤ pyMax l :=
  (le_foldl_max l 0).1 a h

/-- A bounded append below capacity is a plain append. -/
theorem deque_append_of_lt (cap : ℕ) (l : List α) (x : α) (h : l.length + 1 ≤ cap) :
    deque_append cap l x = l ++ [x] := by
  simp only [deque_append, List.length_append, List.length_singleton]
  rw [Nat.sub_eq_zero_of_le h, List.drop_zero]

/-- C4: with the outbound-byte threshold at 1,000,000 and one monitored
target whose window contains a 2,000,000-byte sent sample, a single
`check_for_anomalies` evaluation produces exactly one
`HIGH_BANDWIDTH_OUT` alert, and that alert has severity `MEDIUM`. -/
theorem C4_high_outbound_alert (thr : AlertThresholds) (now : Nat) (st : MonitorState)
    (ip : String) (hips : st.monitored_ips = [ip])
    (hthr : thr.high_bandwidth = 1000000)
    (hmem : 2000000 ∈ (getWin st.bandwidth_data ip).sent) :
    (check_for_anomalies thr now st []).countP
        (fun a => a.kind == AlertType.HIGH_BANDWIDTH_OUT) = 1 ∧
    (check_for_anomalies thr now st []).countP
        (fun a => a.kind == AlertType.HIGH_BANDWIDTH_OUT
          && a.severity == Severity.MEDIUM) = 1 := by
  have hb : (getWin st.bandwidth_data ip).sent.isEmpty = false := by
    cases h : (getWin st.bandwidth_data ip).sent with
    | nil => rw [h] at hmem; simp at hmem
    | cons a t => simp
  have hgt : thr.high_bandwidth < pyMax (getWin st.bandwidth_data ip).sent := by
    have h1 := le_pyMax _ _ hmem
    omega
  simp only [check_for_anomalies, hips, List.foldl_cons, List.foldl_nil, check_ip, hb,
    Bool.not_false, hgt, decide_True, Bool.true_and, if_true, create_alert]
  rw [deque_append_of_lt 100 ([] : List Alert) _ (by norm_num)]
  split_ifs with h1 h2 h2 <;>
    simp [deque_append_of_lt, create_alert, List.countP_cons, List.countP_nil,
      get_alert_severity]

/-- Witness for C4 at a concrete state and thresholds. -/
theorem C4_high_outbound_alert_witness :
    alertState.monitored_ips = ["10.0.0.1"] ∧
    witThresholds.high_bandwidth = 1000000 ∧
    2000000 ∈ (getWin alertState.bandwidth_data "10.0.0.1").sent ∧
    ((check_for_anomalies witThresholds 0 alertState []).countP
        (fun a => a.kind == AlertType.HIGH_BANDWIDTH_OUT) = 1 ∧
      (check_for_anomalies witThresholds 0 alertState []).countP
        (fun a => a.kind == AlertType.HIGH_BANDWIDTH_OUT
          && a.severity == Severity.MEDIUM) = 1) :=
  ⟨rfl, rfl, by decide,
   C4_high_outbound_alert witThresholds 0 alertState "10.0.0.1" rfl rfl (by decide)⟩

end BandwidthMonitor

namespace BandwidthMonitor

/-! ## C5 / C6: registration -/

/-- C5: registering a syntactically valid IP succeeds, and registering
it twice still leaves the active set containing it exactly once
(idempotent add on a Python set). -/
theorem C5_register_idempotent (st : MonitorState) (ip : String)
    (hvalid : ip_address_valid ip = true) (hnd : st.monitored_ips.Nodup) :
    (add_ip_to_monitor st ip).1 = true ∧
    (add_ip_to_monitor (add_ip_to_monitor st ip).2 ip).1 = true ∧
    (add_ip_to_monitor (add_ip_to_monitor st ip).2 ip).2.monitored_ips.count ip = 1 ∧
    (add_ip_to_monitor (add_ip_to_monitor st ip).2 ip).2.monitored_ips.Nodup := by
  by_cases h : ip ∈ st.monitored_ips
  · simp only [add_ip_to_monitor, hvalid, if_true, if_pos h]
    refine ⟨trivial, trivial, ?_, hnd⟩
    exact List.count_eq_one_of_mem hnd h
  · simp only [add_ip_to_monitor, hvalid, if_true, if_neg h]
    have hmem2 : ip ∈ st.monitored_ips ++ [ip] := by simp
    simp only [if_pos hmem2]
    refine ⟨trivial, trivial, ?_, ?_⟩
    · rw [List.count_append]
      rw [List.count_eq_zero.mpr h]
      simp
    · rw [List.nodup_append]
      exact ⟨hnd, List.nodup_singleton ip, by simpa using h⟩

/-- Witness for C5 at a valid address. -/
theorem C5_register_idempotent_witness :
    ip_address_valid "192.168.1.1" = true ∧
    initState.monitored_ips.Nodup ∧
    ((add_ip_to_monitor initState "192.168.1.1").1 = true ∧
      (add_ip_to_monitor (add_ip_to_monitor initState "192.168.1.1").2 "192.168.1.1").1 = true ∧
      (add_ip_to_monitor (add_ip_to_monitor initState "192.168.1.1").2
          "192.168.1.1").2.monitored_ips.count "192.168.1.1" = 1 ∧
      (add_ip_to_monitor (add_ip_to_monitor initState "192.168.1.1").2
          "192.168.1.1").2.monitored_ips.Nodup) :=
  ⟨by decide, by decide,
   C5_register_idempotent initState "192.168.1.1" (by decide) (by decide)⟩

/-- C6: registering a string that is not a valid IP address returns
failure and leaves the whole state (in particular the active set)
unchanged. -/
theorem C6_register_invalid (st : MonitorState) (ip : String)
    (hinvalid : ip_address_valid ip = false) :
    add_ip_to_monitor st ip = (false, st) := by
  simp [add_ip_to_monitor, hinvalid]

/-- Witness for C6 at `"999.999.999.999"` and the empty string. -/
theorem C6_register_invalid_witness :
    (ip_address_valid "999.999.999.999" = false ∧
      add_ip_to_monitor initState "999.999.999.999" = (false, initState)) ∧
    (ip_address_valid "" = false ∧
      add_ip_to_monitor initState "" = (false, initState)) :=
  ⟨⟨by decide, C6_register_invalid initState "999.999.999.999" (by decide)⟩,
   ⟨by decide, C6_register_invalid initState "" (by decide)⟩⟩

/-! ## C7: monitoring lifecycle -/

/-- C7: starting with zero registered targets fails and changes
nothing; starting with at least one target moves Idle to Running
(active flag and monitoring flag set); stopping moves Running to Idle;
and once the monitoring flag is clear, a monitor-loop pass appends no
further samples (it leaves the state untouched), in particular right
after stopping. -/
theorem C7_lifecycle :
    (∀ g : GuiState, g.monitoring_active = false → g.nm.monitored_ips = [] →
      toggle_monitoring g = g) ∧
    (∀ g : GuiState, g.monitoring_active = false → g.nm.monitored_ips ≠ [] →
      (toggle_monitoring g).monitoring_active = true ∧
      (toggle_monitoring g).nm.monitoring = true) ∧
    (∀ g : GuiState, g.monitoring_active = true →
      (toggle_monitoring g).monitoring_active = false ∧
      (toggle_monitoring g).nm.monitoring = false) ∧
    (∀ (dbOk : Bool) (sampler : String → Sample) (st : MonitorState),
      st.monitoring = false → monitor_tick dbOk sampler st = st) ∧
    (∀ (dbOk : Bool) (sampler : String → Sample) (g : GuiState),
      g.monitoring_active = true →
      monitor_tick dbOk sampler (toggle_monitoring g).nm = (toggle_monitoring g).nm) := by
  have hstop : ∀ g : GuiState, g.monitoring_active = true →
      (toggle_monitoring g).monitoring_active = false ∧
      (toggle_monitoring g).nm.monitoring = false := by
    intro g hg
    simp [toggle_monitoring, hg, stop_monitoring]
  have htick : ∀ (dbOk : Bool) (sampler : String → Sample) (st : MonitorState),
      st.monitoring = false → monitor_tick dbOk sampler st = st := by
    intro dbOk sampler st h
    simp [monitor_tick, h]
  refine ⟨?_, ?_, hstop, htick, ?_⟩
  · intro g hg hips
    simp [toggle_monitoring, hg, hips]
  · intro g hg hips
    simp [toggle_monitoring, hg, List.isEmpty_iff, hips, start_monitoring]
  · intro dbOk sampler g hg
    exact htick dbOk sampler _ (hstop g hg).2

/-- Witness for C7 at concrete GUI states. -/
theorem C7_lifecycle_witness :
    (guiIdleEmpty.monitoring_active = false ∧ guiIdleEmpty.nm.monitored_ips = [] ∧
      toggle_monitoring guiIdleEmpty = guiIdleEmpty) ∧
    (guiIdleOne.monitoring_active = false ∧ guiIdleOne.nm.monitored_ips ≠ [] ∧
      (toggle_monitoring guiIdleOne).monitoring_active = true ∧
      (toggle_monitoring guiIdleOne).nm.monitoring = true) ∧
    (guiRunning.monitoring_active = true ∧
      (toggle_monitoring guiRunning).monitoring_active = false ∧
      (toggle_monitoring guiRunning).nm.monitoring = false) ∧
    (initState.monitoring = false ∧
      monitor_tick true (fun _ => ⟨1, 1, 1, 1⟩) initState = initState) ∧
    monitor_tick true (fun _ => ⟨1, 1, 1, 1⟩) (toggle_monitoring guiRunning).nm =
      (toggle_monitoring guiRunning).nm :=
  ⟨⟨rfl, rfl, C7_lifecycle.1 guiIdleEmpty rfl rfl⟩,
   ⟨rfl, by decide,
    (C7_lifecycle.2.1 guiIdleOne rfl (by decide)).1,
    (C7_lifecycle.2.1 guiIdleOne rfl (by decide)).2⟩,
   ⟨rfl, (C7_lifecycle.2.2.1 guiRunning rfl).1, (C7_lifecycle.2.2.1 guiRunning rfl).2⟩,
   ⟨rfl, C7_lifecycle.2.2.2.1 true (fun _ => ⟨1, 1, 1, 1⟩) initState rfl⟩,
   C7_lifecycle.2.2.2.2 true (fun _ => ⟨1, 1, 1, 1⟩) guiRunning rfl⟩

end BandwidthMonitor

namespace BandwidthMonitor

/-! ## C8: persistence failures are swallowed -/

/-- Processing one sample touches the core fields identically whether or
not the durable write succeeds. -/
theorem process_sample_core_eq (st1 st2 : MonitorState) (ip : String) (s : Sample)
    (hbw : st1.bandwidth_data = st2.bandwidth_data)
    (hpk : st1.packet_data = st2.packet_data)
    (hq : st1.data_queue = st2.data_queue) :
    (process_sample false st1 ip s).bandwidth_data
        = (process_sample true st2 ip s).bandwidth_data ∧
    (process_sample false st1 ip s).packet_data
        = (process_sample true st2 ip s).packet_data ∧
    (process_sample false st1 ip s).data_queue
        = (process_sample true st2 ip s).data_queue := by
  simp [process_sample, add_bandwidth_log, sqlite_insert, hbw, hpk, hq]

/-- A whole loop pass keeps the core fields dbOk-independent. -/
theorem foldl_process_core_eq (sampler : String → Sample) :
    ∀ (ips : List String) (st1 st2 : MonitorState),
      st1.bandwidth_data = st2.bandwidth_data →
      st1.packet_data = st2.packet_data →
      st1.data_queue = st2.data_queue →
      ((ips.foldl (fun acc ip => process_sample false acc ip (sampler ip)) st1).bandwidth_data
          = (ips.foldl (fun acc ip => process_sample true acc ip (sampler ip)) st2).bandwidth_data ∧
        (ips.foldl (fun acc ip => process_sample false acc ip (sampler ip)) st1).packet_data
          = (ips.foldl (fun acc ip => process_sample true acc ip (sampler ip)) st2).packet_data ∧
        (ips.foldl (fun acc ip => process_sample false acc ip (sampler ip)) st1).data_queue
          = (ips.foldl (fun acc ip => process_sample true acc ip (sampler ip)) st2).data_queue) := by
  intro ips
  induction ips with
  | nil => intro st1 st2 hbw hpk hq; exact ⟨hbw, hpk, hq⟩
  | cons ip rest ih =>
    intro st1 st2 hbw hpk hq
    have h := process_sample_core_eq st1 st2 ip (sampler ip) hbw hpk hq
    exact ih _ _ h.1 h.2.1 h.2.2

/-- C8: the persistence append never propagates an error: it always
returns normally; when the durable write fails the database log is
unchanged and the failure is recorded in the error log, nothing else is
touched; and a full sampling pass appends the same windows and queue
entries whether or not the write succeeds (the loop continues). -/
theorem C8_best_effort_persistence :
    (∀ (dbOk : Bool) (st : MonitorState) (row : DbRow),
      (add_bandwidth_log dbOk st row).monitoring = st.monitoring ∧
      (add_bandwidth_log dbOk st row).monitored_ips = st.monitored_ips ∧
      (add_bandwidth_log dbOk st row).bandwidth_data = st.bandwidth_data ∧
      (add_bandwidth_log dbOk st row).packet_data = st.packet_data ∧
      (add_bandwidth_log dbOk st row).data_queue = st.data_queue) ∧
    (∀ (st : MonitorState) (row : DbRow),
      add_bandwidth_log false st row =
        { st with
          error_log := st.error_log ++ ["Error adding bandwidth log: database failure"] }) ∧
    (∀ (sampler : String → Sample) (st : MonitorState),
      (monitor_tick false sampler st).bandwidth_data
          = (monitor_tick true sampler st).bandwidth_data ∧
      (monitor_tick false sampler st).packet_data
          = (monitor_tick true sampler st).packet_data ∧
      (monitor_tick false sampler st).data_queue
          = (monitor_tick true sampler st).data_queue) := by
  refine ⟨add_bandwidth_log_core, ?_, ?_⟩
  · intro st row
    simp [add_bandwidth_log, sqlite_insert]
  · intro sampler st
    by_cases h : st.monitoring
    · simp only [monitor_tick, h, if_true]
      exact foldl_process_core_eq sampler st.monitored_ips st st rfl rfl rfl
    · simp only [monitor_tick, h]
      exact ⟨rfl, rfl, rfl⟩

/-- Witness for C8: a failing write on a concrete state logs and
returns, and a concrete tick is unaffected. -/
theorem C8_best_effort_persistence_witness :
    ((add_bandwidth_log false initState ⟨"10.0.0.1", 1, 2, 3, 4, "ethernet"⟩).monitoring
        = initState.monitoring ∧
      (add_bandwidth_log false initState ⟨"10.0.0.1", 1, 2, 3, 4, "ethernet"⟩).monitored_ips
        = initState.monitored_ips ∧
      (add_bandwidth_log false initState ⟨"10.0.0.1", 1, 2, 3, 4, "ethernet"⟩).bandwidth_data
        = initState.bandwidth_data ∧
      (add_bandwidth_log false initState ⟨"10.0.0.1", 1, 2, 3, 4, "ethernet"⟩).packet_data
        = initState.packet_data ∧
      (add_bandwidth_log false initState ⟨"10.0.0.1", 1, 2, 3, 4, "ethernet"⟩).data_queue
        = initState.data_queue) ∧
    add_bandwidth_log false initState ⟨"10.0.0.1", 1, 2, 3, 4, "ethernet"⟩ =
      { initState with
        error_log := initState.error_log ++ ["Error adding bandwidth log: database failure"] } ∧
    (monitor_tick false (fun _ => ⟨1, 1, 1, 1⟩) guiRunning.nm).bandwidth_data
        = (monitor_tick true (fun _ => ⟨1, 1, 1, 1⟩) guiRunning.nm).bandwidth_data :=
  ⟨C8_best_effort_persistence.1 false initState ⟨"10.0.0.1", 1, 2, 3, 4, "ethernet"⟩,
   C8_best_effort_persistence.2.1 initState ⟨"10.0.0.1", 1, 2, 3, 4, "ethernet"⟩,
   (C8_best_effort_persistence.2.2 (fun _ => ⟨1, 1, 1, 1⟩) guiRunning.nm).1⟩

/-! ## C9: exporting an empty target set -/

/-- C9: with no monitored targets, the export operation produces the
well-formed empty JSON object, not an error. -/
theorem C9_export_empty (st : MonitorState) (h : st.monitored_ips = []) :
    export_data st = [] ∧ json_dump (export_data st) = "\x7b\x7d" := by
  have he : export_data st = [] := by simp [export_data, h]
  exact ⟨he, by rw [he]; rfl⟩

/-- Witness for C9 at the initial state. -/
theorem C9_export_empty_witness :
    initState.monitored_ips = [] ∧
    (export_data initState = [] ∧ json_dump (export_data initState) = "\x7b\x7d") :=
  ⟨rfl, C9_export_empty initState rfl⟩

/-! ## C10: unregistering keeps the windows -/

/-- C10: removing a target from monitoring removes it from the active
set but leaves the bandwidth and packet windows untouched, so total,
average and peak queries for the removed identifier are unchanged. -/
theorem C10_unregister_keeps_windows (st : MonitorState) (ip : String)
    (hnd : st.monitored_ips.Nodup) :
    (remove_ip_from_monitor st ip).bandwidth_data = st.bandwidth_data ∧
    (remove_ip_from_monitor st ip).packet_data = st.packet_data ∧
    ip ∉ (remove_ip_from_monitor st ip).monitored_ips ∧
    getWin (remove_ip_from_monitor st ip).bandwidth_data ip = getWin st.bandwidth_data ip ∧
    get_total_bandwidth (remove_ip_from_monitor st ip) ip = get_total_bandwidth st ip ∧
    get_average_bandwidth (remove_ip_from_monitor st ip) ip = get_average_bandwidth st ip ∧
    get_peak_bandwidth (remove_ip_from_monitor st ip) ip = get_peak_bandwidth st ip := by
  refine ⟨rfl, rfl, ?_, rfl, rfl, rfl, rfl⟩
  intro hmem
  have h := (List.Nodup.mem_erase_iff hnd).mp hmem
  exact h.1 rfl

/-- Witness for C10 at a state with recorded data. -/
theorem C10_unregister_keeps_windows_witness :
    removeState.monitored_ips.Nodup ∧
    ((remove_ip_from_monitor removeState "10.0.0.1").bandwidth_data
        = removeState.bandwidth_data ∧
      (remove_ip_from_monitor removeState "10.0.0.1").packet_data
        = removeState.packet_data ∧
      "10.0.0.1" ∉ (remove_ip_from_monitor removeState "10.0.0.1").monitored_ips ∧
      getWin (remove_ip_from_monitor removeState "10.0.0.1").bandwidth_data "10.0.0.1"
        = getWin removeState.bandwidth_data "10.0.0.1" ∧
      get_total_bandwidth (remove_ip_from_monitor removeState "10.0.0.1") "10.0.0.1"
        = get_total_bandwidth removeState "10.0.0.1" ∧
      get_average_bandwidth (remove_ip_from_monitor removeState "10.0.0.1") "10.0.0.1"
        = get_average_bandwidth removeState "10.0.0.1" ∧
      get_peak_bandwidth (remove_ip_from_monitor removeState "10.0.0.1") "10.0.0.1"
        = get_peak_bandwidth removeState "10.0.0.1") :=
  ⟨by decide, C10_unregister_keeps_windows removeState "10.0.0.1" (by decide)⟩

end BandwidthMonitor
